import Mathlib

/-!
Shallow embedding of the orchestration pipeline of
`src/full_model/report_generation_model.py` and the metric-aggregation loop of
`src/full_model/test_set_evaluation_full_model.py`.

Dense boolean masks of shape N×R are `List (List Bool)` (row-major), flattened
per-region sequences (input_ids, attention_mask) are flat lists of length N*R,
and dense feature tensors of shape N×R×D are `List (List φ)` where `φ` stands
for one region's feature vector. Boolean-mask tensor indexing is `compactFlat`.
External collaborators (object detector, binary classifier, language model) are
parameters bundled in `Stages`.
-/

namespace ReportGen

/-- Fixed number of anatomical region slots per image; 29 throughout the source. -/
def numRegions : Nat := 29

/-- Boolean-mask indexing `xs[mask]` on a flat sequence: keep exactly the entries
of `xs` at positions where `mask` is true, in order. -/
def compactFlat {α : Type} (mask : List Bool) (xs : List α) : List α :=
  (List.zip mask xs).filterMap fun p => if p.1 then some p.2 else none

/-- Elementwise `torch.logical_and` on two dense boolean masks of shape N×R
(source: `report_generation_model.py` line 174). -/
def logicalAnd (a b : List (List Bool)) : List (List Bool) :=
  List.zipWith (fun ra rb => List.zipWith (fun x y => x && y) ra rb) a b

/-- From the spec's words (§4.1, §4.2 training step 3): the training mask is the
elementwise logical AND of the `detected` mask and the `hasSentenceGT` mask.
Stated separately from `logicalAnd` so the source-side compaction can be compared
against the spec-side mask. -/
def trainingMaskSpec (detected hasSentenceGT : List (List Bool)) : List (List Bool) :=
  List.zipWith (fun dr gr => List.zipWith (fun d g => d && g) dr gr) detected hasSentenceGT

/-- Indices (starting at offset `k`) of the true entries of a flat boolean mask,
in order. -/
def trueIndicesFrom (k : Nat) : List Bool → List Nat
  | [] => []
  | b :: bs => if b then k :: trueIndicesFrom (k + 1) bs else trueIndicesFrom (k + 1) bs

/-- Row-major `(imageIndex, regionIndex)` pairs of the true entries of a dense
mask, with image indices starting at `i`. -/
def truePositionsFrom (i : Nat) : List (List Bool) → List (Nat × Nat)
  | [] => []
  | row :: rest => ((trueIndicesFrom 0 row).map fun r => (i, r)) ++ truePositionsFrom (i + 1) rest

/-- Row-major `(imageIndex, regionIndex)` pairs of the true entries of a dense mask. -/
def truePositions (m : List (List Bool)) : List (Nat × Nat) := truePositionsFrom 0 m

/-- Entry `(i, r)` of a dense boolean mask, `false` out of range. -/
def lookupMask (m : List (List Bool)) (i r : Nat) : Bool :=
  (m.getD i []).getD r false

/-- Pointwise implication between dense boolean masks: every true entry of `a`
is a true entry of `b`. -/
def maskLE (a b : List (List Bool)) : Prop :=
  ∀ i r : Nat, lookupMask a i r = true → lookupMask b i r = true

/-- One component of a Python result tuple: either an opaque payload (loss dict,
loss scalar, detections, output ids) or a dense boolean mask. -/
inductive PyComp (ω : Type) where
  | blob (x : ω)
  | mask (m : List (List Bool))
  deriving DecidableEq

/-- A Python return value of the model: the integer sentinel `-1` or a tuple. -/
inductive PyRet (ω : Type) where
  | int (n : Int)
  | tup (vs : List (PyComp ω))
  deriving DecidableEq

/-- The external collaborators called by the pipeline, as functions. `ι` images,
`γ` image targets, `ω` opaque payloads (losses, detections, generated ids),
`σ`/`τ` one region's input_ids/attention_mask row, `φ` one region's feature
vector. The object detector returns `(loss_dict, top_region_features,
class_detected)` in training mode and `(loss_dict, detections,
top_region_features, class_detected)` otherwise; the binary classifier for
region selection returns its loss in training mode and `(loss, selected_regions,
selected_region_features)` in evaluation mode, and `(selected_regions,
selected_region_features)` with `return_loss=False` in generate. -/
structure Stages (ι γ ω σ τ φ : Type) where
  objectDetectorTrain : ι → γ → ω × List (List φ) × List (List Bool)
  objectDetectorEval : ι → γ → ω × ω × List (List φ) × List (List Bool)
  objectDetectorInference : ι → ω × ω × List (List φ) × List (List Bool)
  classifierTrain : List (List φ) → List (List Bool) → List (List Bool) → ω
  classifierEval : List (List φ) → List (List Bool) → List (List Bool) → ω × List (List Bool) × List φ
  classifierInference : List (List φ) → List (List Bool) → List (List Bool) × List φ
  languageModelForward : List σ → List τ → List φ → ω
  languageModelGenerate : List φ → ω

/-- Result of one `forward` call: the returned Python value, plus the argument
triple `(valid_input_ids, valid_attention_mask, valid_region_features)` passed
to the language model, or `none` if the language model was not invoked. -/
structure ForwardOut (ω σ τ φ : Type) where
  result : PyRet ω
  lmInput : Option (List σ × List τ × List φ)

/-- Source: `ReportGenerationModel.get_valid_decoder_input_for_training`
(report_generation_model.py lines 161–183): build `valid =
torch.logical_and(class_detected, region_has_sentence)`, reshape it to a flat
mask, and use it to index input_ids, attention_mask and (as the 2-D mask, i.e.
row-major on the flattened grid) the dense region features. -/
def getValidDecoderInputForTraining {σ τ φ : Type}
    (classDetected regionHasSentence : List (List Bool))
    (inputIds : List σ) (attentionMask : List τ)
    (regionFeatures : List (List φ)) : List σ × List τ × List φ :=
  let valid := logicalAnd classDetected regionHasSentence
  let validReshaped := valid.flatten
  (compactFlat validReshaped inputIds,
   compactFlat validReshaped attentionMask,
   compactFlat valid.flatten regionFeatures.flatten)

/-- Source: `ReportGenerationModel.get_valid_decoder_input_for_evaluation`
(report_generation_model.py lines 185–201): reshape `selected_regions` to a flat
mask and use it to index input_ids and attention_mask. -/
def getValidDecoderInputForEvaluation {σ τ : Type}
    (selectedRegions : List (List Bool))
    (inputIds : List σ) (attentionMask : List τ) : List σ × List τ :=
  let selectedRegionsReshaped := selectedRegions.flatten
  (compactFlat selectedRegionsReshaped inputIds,
   compactFlat selectedRegionsReshaped attentionMask)

/-- Source: `ReportGenerationModel.forward` (report_generation_model.py lines
37–159). `training` is the module's `self.training` flag and
`pretrainWithoutLmModel` the `pretrain_without_lm_model` flag. The early return
`-1` models line 127–128 (`if valid_input_ids.shape[0] == 0: return -1`). -/
def forward {ι γ ω σ τ φ : Type} (S : Stages ι γ ω σ τ φ)
    (training pretrainWithoutLmModel : Bool)
    (images : ι) (imageTargets : γ)
    (inputIds : List σ) (attentionMask : List τ)
    (regionHasSentence : List (List Bool)) (_regionIsAbnormal : List (List Bool)) :
    ForwardOut ω σ τ φ :=
  if training then
    let t := S.objectDetectorTrain images imageTargets
    let objDetectorLossDict := t.1
    let topRegionFeatures := t.2.1
    let classDetected := t.2.2
    let classifierLossRegionSelection :=
      S.classifierTrain topRegionFeatures classDetected regionHasSentence
    if pretrainWithoutLmModel then
      ⟨.tup [.blob objDetectorLossDict, .blob classifierLossRegionSelection], none⟩
    else
      let v := getValidDecoderInputForTraining classDetected regionHasSentence
        inputIds attentionMask topRegionFeatures
      let validInputIds := v.1
      let validAttentionMask := v.2.1
      let validRegionFeatures := v.2.2
      if validInputIds.length = 0 then
        ⟨.int (-1), none⟩
      else
        let languageModelLoss :=
          S.languageModelForward validInputIds validAttentionMask validRegionFeatures
        ⟨.tup [.blob objDetectorLossDict, .blob classifierLossRegionSelection,
               .blob languageModelLoss],
         some (validInputIds, validAttentionMask, validRegionFeatures)⟩
  else
    let t := S.objectDetectorEval images imageTargets
    let objDetectorLossDict := t.1
    let detections := t.2.1
    let topRegionFeatures := t.2.2.1
    let classDetected := t.2.2.2
    let c := S.classifierEval topRegionFeatures classDetected regionHasSentence
    let classifierLossRegionSelection := c.1
    let selectedRegions := c.2.1
    let selectedRegionFeatures := c.2.2
    if pretrainWithoutLmModel then
      ⟨.tup [.blob objDetectorLossDict, .blob classifierLossRegionSelection,
             .blob detections, .mask classDetected, .mask selectedRegions], none⟩
    else
      let v := getValidDecoderInputForEvaluation selectedRegions inputIds attentionMask
      let validInputIds := v.1
      let validAttentionMask := v.2
      let validRegionFeatures := selectedRegionFeatures
      if validInputIds.length = 0 then
        ⟨.int (-1), none⟩
      else
        let languageModelLoss :=
          S.languageModelForward validInputIds validAttentionMask validRegionFeatures
        ⟨.tup [.blob objDetectorLossDict, .blob classifierLossRegionSelection,
               .blob languageModelLoss, .blob detections,
               .mask classDetected, .mask selectedRegions],
         some (validInputIds, validAttentionMask, validRegionFeatures)⟩

/-- Modelled from the spec: `BinaryClassifierRegionSelection`
(src/binary_classifier/binary_classifier_region_selection.py is not included
under src/). Per §6 and §4.2 step 2 of the spec, the selector predicts a raw
per-slot mask from the features, and the invariant `selected ⇒ detected` holds
"by construction of the selector's own masking": the predicted mask is ANDed
with `class_detected`. It also returns the region features compacted by the
selected mask (row-major), per the §6 contract. -/
def binaryClassifierRegionSelection {φ : Type}
    (predict : List (List φ) → List (List Bool))
    (topRegionFeatures : List (List φ)) (classDetected : List (List Bool)) :
    List (List Bool) × List φ :=
  let selectedRegions := logicalAnd (predict topRegionFeatures) classDetected
  (selectedRegions, compactFlat selectedRegions.flatten topRegionFeatures.flatten)

/-- Source: `ReportGenerationModel.generate` (report_generation_model.py lines
203–267). The early return `-1` models lines 251–252
(`if selected_region_features.shape[0] == 0: return -1`). -/
def generate {ι γ ω σ τ φ : Type} (S : Stages ι γ ω σ τ φ) (images : ι) : PyRet ω :=
  let t := S.objectDetectorInference images
  let detections := t.2.1
  let topRegionFeatures := t.2.2.1
  let classDetected := t.2.2.2
  let c := S.classifierInference topRegionFeatures classDetected
  let selectedRegions := c.1
  let selectedRegionFeatures := c.2
  if selectedRegionFeatures.length = 0 then
    .int (-1)
  else
    let outputIds := S.languageModelGenerate selectedRegionFeatures
    .tup [.blob outputIds, .mask selectedRegions, .blob detections, .mask classDetected]

/-- The pair of masks carried by a normal evaluation-mode `forward` result:
`(class_detected, selected_regions)`, the 5th and 6th components of the 6-tuple
returned at report_generation_model.py lines 152–159. -/
def evalResultMasks {ω : Type} : PyRet ω → Option (List (List Bool) × List (List Bool))
  | .tup [_, _, _, _, .mask classDetected, .mask selectedRegions] =>
      some (classDetected, selectedRegions)
  | _ => none

/-- The pair of masks carried by a normal `generate` result:
`(class_detected, selected_regions)`, the 4th and 2nd components of the 4-tuple
returned at report_generation_model.py line 267. -/
def generateResultMasks {ω : Type} : PyRet ω → Option (List (List Bool) × List (List Bool))
  | .tup [_, .mask selectedRegions, _, .mask classDetected] =>
      some (classDetected, selectedRegions)
  | _ => none

/-- The 8-way destructuring of the model output performed by `get_metric_scores`
(test_set_evaluation_full_model.py lines 431–440): succeeds exactly on tuples
with 8 components. -/
def unpack8 {ω : Type} :
    PyRet ω →
    Option (PyComp ω × PyComp ω × PyComp ω × PyComp ω × PyComp ω × PyComp ω × PyComp ω × PyComp ω)
  | .tup [a, b, c, d, e, f, g, h] => some (a, b, c, d, e, f, g, h)
  | _ => none

/-- The `obj_detector_scores` accumulators created at
test_set_evaluation_full_model.py lines 358–361: three per-region running sums
(29 entries each), never divided mid-run. -/
structure ObjDetectorScores where
  sumIntersectionAreaPerRegion : List ℚ
  sumUnionAreaPerRegion : List ℚ
  sumRegionDetected : List ℚ
  deriving DecidableEq

/-- The mutable state of the `get_metric_scores` loop: the object-detector
accumulators, the (externally updated, hence abstract) torchmetrics states for
region selection (`ρ`) and region abnormality (`α`), and the running image
count. -/
structure MetricState (ρ α : Type) where
  objDetectorScores : ObjDetectorScores
  regionSelectionScores : ρ
  regionAbnormalScores : α
  numImages : Nat
  deriving DecidableEq

/-- The accumulator-update functions imported from
`src.full_model.evaluate_full_model.evaluate_model` (not under src/): treated as
opaque collaborators, each consuming the relevant unpacked model-output
components. -/
structure BatchUpdaters (ω ρ α : Type) where
  updateObjectDetectorMetrics : ObjDetectorScores → PyComp ω → PyComp ω → ObjDetectorScores
  updateRegionSelectionMetrics : ρ → PyComp ω → ρ
  updateRegionAbnormalMetrics : α → PyComp ω → α

/-- Outcome of the `model(...)` call inside the `try` block of
`get_metric_scores`: a returned value, or a RuntimeError whose message contains
"out of memory". -/
inductive ModelCallOutcome (ω : Type) where
  | ok (output : PyRet ω)
  | oomRuntimeError
  deriving DecidableEq

/-- One batch as seen by the `get_metric_scores` loop. -/
structure EvalBatch (ω : Type) where
  batchSize : Nat
  modelCall : ModelCallOutcome ω
  deriving DecidableEq

/-- How one iteration of the `get_metric_scores` loop can abort instead of
producing an updated state. -/
inductive EvalAbort where
  | oomRaised
  | unpackValueError
  deriving DecidableEq

/-- One iteration of the `get_metric_scores` loop
(test_set_evaluation_full_model.py lines 383–453): `num_images += batch_size`
(line 392), then the model call; an out-of-memory RuntimeError is re-raised by
the `raise e` at line 413, so it aborts the whole loop (the `if oom:` skip block
at lines 415–422 is unreachable); a `-1` sentinel output decrements
`num_images` back and skips the batch (lines 425–429); otherwise the output is
destructured into 8 components (lines 431–440) — a non-8-tuple raises a
ValueError — and the three metric updaters run. -/
def metricStep {ω ρ α : Type} [DecidableEq ω] (U : BatchUpdaters ω ρ α)
    (st : MetricState ρ α) (b : EvalBatch ω) : Except EvalAbort (MetricState ρ α) :=
  let st1 : MetricState ρ α := { st with numImages := st.numImages + b.batchSize }
  match b.modelCall with
  | .oomRuntimeError => .error .oomRaised
  | .ok output =>
    if output = PyRet.int (-1) then
      .ok { st1 with numImages := st1.numImages - b.batchSize }
    else
      match unpack8 output with
      | some (_, _, _, _, detections, classDetected, selectedRegions, predictedAbnormalRegions) =>
        .ok { st1 with
              objDetectorScores :=
                U.updateObjectDetectorMetrics st1.objDetectorScores detections classDetected,
              regionSelectionScores :=
                U.updateRegionSelectionMetrics st1.regionSelectionScores selectedRegions,
              regionAbnormalScores :=
                U.updateRegionAbnormalMetrics st1.regionAbnormalScores predictedAbnormalRegions }
      | none => .error .unpackValueError

/-- An IEEE-style value produced by a tensor division: a finite (exact) value,
NaN, or a signed infinity. Division of the exact accumulator values by zero
yields NaN (0/0) or an infinity, as float division does. -/
inductive TVal where
  | fin (q : ℚ)
  | nan
  | inf
  | ninf
  deriving DecidableEq

/-- Float-style division of two exact values. -/
def tdiv (a b : ℚ) : TVal :=
  if b = 0 then (if a = 0 then .nan else if 0 < a then .inf else .ninf)
  else .fin (a / b)

/-- Float-style addition on `TVal` (NaN absorbs; opposite infinities give NaN). -/
def tadd : TVal → TVal → TVal
  | .fin a, .fin b => .fin (a + b)
  | .nan, _ => .nan
  | _, .nan => .nan
  | .inf, .ninf => .nan
  | .ninf, .inf => .nan
  | .inf, _ => .inf
  | _, .inf => .inf
  | .ninf, _ => .ninf
  | _, .ninf => .ninf

/-- Float-style sum of a list of `TVal`s (models `torch.sum`). -/
def tvalSum (l : List TVal) : TVal := l.foldr tadd (.fin 0)

/-- Source: test_set_evaluation_full_model.py line 458:
`avg_iou = (torch.sum(sum_intersection) / torch.sum(sum_union)).item()`. -/
def computeAvgIou (s : ObjDetectorScores) : TVal :=
  tdiv s.sumIntersectionAreaPerRegion.sum s.sumUnionAreaPerRegion.sum

/-- Source: test_set_evaluation_full_model.py line 459:
`avg_iou_per_region = (sum_intersection / sum_union).tolist()` (elementwise). -/
def computeAvgIouPerRegion (s : ObjDetectorScores) : List TVal :=
  List.zipWith tdiv s.sumIntersectionAreaPerRegion s.sumUnionAreaPerRegion

/-- Source: test_set_evaluation_full_model.py line 462:
`avg_num_detected_regions_per_image = torch.sum(sum_region_detected / num_images).item()`
(elementwise division by the scalar image count, then a sum). -/
def computeAvgNumDetectedRegionsPerImage (s : ObjDetectorScores) (numImages : Nat) : TVal :=
  tvalSum (s.sumRegionDetected.map fun d => tdiv d (numImages : ℚ))

/-- Source: test_set_evaluation_full_model.py line 463:
`avg_detections_per_region = (sum_region_detected / num_images).tolist()`. -/
def computeAvgDetectionsPerRegion (s : ObjDetectorScores) (numImages : Nat) : List TVal :=
  s.sumRegionDetected.map fun d => tdiv d (numImages : ℚ)

/-- A small concrete instantiation of the external stages (2 images × 2 region
slots, opaque payloads collapsed to `Unit`), used to evaluate the pipeline on
concrete inputs. The region-selection classifier follows the spec-modelled
`binaryClassifierRegionSelection` with a fixed raw prediction. -/
def demoStages : Stages Unit Unit Unit Nat Nat Nat where
  objectDetectorTrain := fun _ _ => ((), [[10, 11], [12, 13]], [[true, false], [true, true]])
  objectDetectorEval := fun _ _ => ((), (), [[10, 11], [12, 13]], [[true, false], [true, true]])
  objectDetectorInference := fun _ => ((), (), [[10, 11], [12, 13]], [[true, false], [true, true]])
  classifierTrain := fun _ _ _ => ()
  classifierEval := fun f cd _ =>
    ((), (binaryClassifierRegionSelection (fun _ => [[true, true], [false, true]]) f cd).1,
     (binaryClassifierRegionSelection (fun _ => [[true, true], [false, true]]) f cd).2)
  classifierInference := fun f cd =>
    binaryClassifierRegionSelection (fun _ => [[true, true], [false, true]]) f cd
  languageModelForward := fun _ _ _ => ()
  languageModelGenerate := fun _ => ()

/-- Trivial metric updaters for concrete evaluation of the loop. -/
def demoUpdaters : BatchUpdaters Unit Unit Unit where
  updateObjectDetectorMetrics := fun s _ _ => s
  updateRegionSelectionMetrics := fun r _ => r
  updateRegionAbnormalMetrics := fun a _ => a

/-- A concrete initial metric state. -/
def demoState : MetricState Unit Unit where
  objDetectorScores := ⟨[0, 0], [0, 0], [0, 0]⟩
  regionSelectionScores := ()
  regionAbnormalScores := ()
  numImages := 0

theorem compactFlat_nil {α : Type} (xs : List α) : compactFlat ([] : List Bool) xs = [] := rfl

theorem compactFlat_nil_right {α : Type} (mask : List Bool) :
    compactFlat mask ([] : List α) = [] := by
  cases mask <;> rfl

theorem compactFlat_cons_cons {α : Type} (b : Bool) (bs : List Bool) (x : α) (xt : List α) :
    compactFlat (b :: bs) (x :: xt) =
      if b then x :: compactFlat bs xt else compactFlat bs xt := by
  cases b <;> simp [compactFlat]

theorem compactFlat_eq_nil_of_all_false {α : Type} (mask : List Bool) (xs : List α)
    (h : ∀ b ∈ mask, b = false) : compactFlat mask xs = [] := by
  induction mask generalizing xs with
  | nil => exact compactFlat_nil xs
  | cons b bs ih =>
    cases xs with
    | nil => exact compactFlat_nil_right _
    | cons x xt =>
      have hb : b = false := h b (by simp)
      rw [compactFlat_cons_cons, hb]
      simpa using ih xt (fun c hc => h c (by simp [hc]))

theorem trueIndicesFrom_cons_false (k : Nat) (bs : List Bool) :
    trueIndicesFrom k (false :: bs) = trueIndicesFrom (k + 1) bs := by
  simp [trueIndicesFrom]

theorem trueIndicesFrom_cons_true (k : Nat) (bs : List Bool) :
    trueIndicesFrom k (true :: bs) = k :: trueIndicesFrom (k + 1) bs := by
  simp [trueIndicesFrom]

theorem trueIndicesFrom_eq_map_add (bs : List Bool) (k : Nat) :
    trueIndicesFrom k bs = (trueIndicesFrom 0 bs).map (fun j => k + j) := by
  induction bs generalizing k with
  | nil => simp [trueIndicesFrom]
  | cons b bt ih =>
    have h1 := ih (k + 1)
    have h0 := ih 1
    have hfun : (fun j => k + (1 + j)) = (fun j : Nat => k + 1 + j) := by
      funext j; omega
    cases b <;>
      simp [trueIndicesFrom, h1, h0, List.map_map, Function.comp_def, hfun]

theorem trueIndicesFrom_append (a b : List Bool) (k : Nat) :
    trueIndicesFrom k (a ++ b) =
      trueIndicesFrom k a ++ trueIndicesFrom (k + a.length) b := by
  induction a generalizing k with
  | nil => simp [trueIndicesFrom]
  | cons x xt ih =>
    have h := ih (k + 1)
    have harith : k + 1 + xt.length = k + (xt.length + 1) := by omega
    cases x <;> simp [trueIndicesFrom, h, harith]

theorem compactFlat_eq_map_getD {α : Type} (mask : List Bool) (xs : List α) (d : α)
    (h : mask.length ≤ xs.length) :
    compactFlat mask xs = (trueIndicesFrom 0 mask).map (fun j => xs.getD j d) := by
  induction mask generalizing xs with
  | nil => simp [trueIndicesFrom, compactFlat_nil]
  | cons b bs ih =>
    cases xs with
    | nil => simp at h
    | cons x xt =>
      have hlen : bs.length ≤ xt.length := by simpa using h
      have hshift := trueIndicesFrom_eq_map_add bs 1
      have hone : (fun j : Nat => (x :: xt).getD (1 + j) d) = (fun j => xt.getD j d) := by
        funext j
        rw [Nat.add_comm 1 j, List.getD_cons_succ]
      rw [compactFlat_cons_cons]
      cases b with
      | false =>
        simp only [trueIndicesFrom_cons_false, Bool.false_eq_true, ite_false,
          Nat.zero_add, hshift, List.map_map, Function.comp_def, ih xt hlen]
        refine List.map_congr_left fun a _ => ?_
        rw [Nat.add_comm 1 a, List.getD_cons_succ]
      | true =>
        simp only [trueIndicesFrom_cons_true, ite_true, Nat.zero_add, hshift,
          List.map_map, Function.comp_def, ih xt hlen, List.map_cons, List.getD_cons_zero]
        refine congrArg _ (List.map_congr_left fun a _ => ?_)
        rw [Nat.add_comm 1 a, List.getD_cons_succ]

theorem flatten_length_const {α : Type} (m : List (List α)) (R : Nat)
    (h : ∀ row ∈ m, row.length = R) : m.flatten.length = m.length * R := by
  induction m with
  | nil => simp
  | cons row rest ih =>
    have hr : row.length = R := h row (by simp)
    have hrest := ih (fun r hr2 => h r (by simp [hr2]))
    simp [hr, hrest]
    ring

theorem trueIndicesFrom_flatten (m : List (List Bool)) (R : Nat)
    (h : ∀ row ∈ m, row.length = R) (i : Nat) :
    trueIndicesFrom (i * R) m.flatten =
      (truePositionsFrom i m).map (fun p => p.1 * R + p.2) := by
  induction m generalizing i with
  | nil => simp [trueIndicesFrom, truePositionsFrom]
  | cons row rest ih =>
    have hr : row.length = R := h row (by simp)
    have hrest := ih (fun r hr2 => h r (by simp [hr2])) (i + 1)
    have hrow := trueIndicesFrom_eq_map_add row (i * R)
    have harith : i * R + row.length = (i + 1) * R := by rw [hr]; ring
    simp only [List.flatten_cons, truePositionsFrom, trueIndicesFrom_append, harith, hrest,
      hrow, List.map_append, List.map_map, Function.comp_def]

theorem mem_trueIndicesFrom_lt (bs : List Bool) :
    ∀ (k j : Nat), j ∈ trueIndicesFrom k bs → j < k + bs.length := by
  induction bs with
  | nil => intro k j h; simp [trueIndicesFrom] at h
  | cons b bt ih =>
    intro k j h
    cases b with
    | false =>
      have h2 : j ∈ trueIndicesFrom (k + 1) bt := by simpa [trueIndicesFrom] using h
      have := ih (k + 1) j h2
      simp only [List.length_cons]
      omega
    | true =>
      have h2 : j = k ∨ j ∈ trueIndicesFrom (k + 1) bt := by
        simpa [trueIndicesFrom] using h
      simp only [List.length_cons]
      rcases h2 with rfl | h2
      · omega
      · have := ih (k + 1) j h2
        omega

theorem snd_lt_of_mem_truePositionsFrom (m : List (List Bool)) (R : Nat)
    (h : ∀ row ∈ m, row.length = R) :
    ∀ (i : Nat) (p : Nat × Nat), p ∈ truePositionsFrom i m → p.2 < R := by
  induction m with
  | nil => intro i p hp; simp [truePositionsFrom] at hp
  | cons row rest ih =>
    intro i p hp
    simp only [truePositionsFrom, List.mem_append, List.mem_map] at hp
    rcases hp with ⟨r, hr, rfl⟩ | hp
    · have := mem_trueIndicesFrom_lt row 0 r hr
      have hrow : row.length = R := h row (by simp)
      simpa [hrow] using this
    · exact ih (fun q hq => h q (by simp [hq])) (i + 1) p hp

theorem getD_flatten_const {α : Type} (m : List (List α)) (R : Nat)
    (h : ∀ row ∈ m, row.length = R) (i r : Nat) (hr : r < R) (d : α) :
    m.flatten.getD (i * R + r) d = (m.getD i []).getD r d := by
  induction m generalizing i with
  | nil => simp
  | cons row rest ih =>
    have hrow : row.length = R := h row (by simp)
    have hrest := ih (fun q hq => h q (by simp [hq]))
    cases i with
    | zero =>
      have hlt : 0 * R + r < row.length := by omega
      simp only [List.flatten_cons, Nat.zero_mul, Nat.zero_add,
        List.getD_append _ _ _ _ (by omega : r < row.length), List.getD_cons_zero]
    | succ n =>
      have hge : row.length ≤ (n + 1) * R + r := by
        rw [hrow]; have : R ≤ (n + 1) * R := Nat.le_mul_of_pos_left R (by omega)
        omega
      rw [List.flatten_cons, List.getD_append_right _ _ _ _ hge, List.getD_cons_succ]
      have harith : (n + 1) * R + r - row.length = n * R + r := by
        rw [hrow]; ring_nf; omega
      rw [harith, hrest n]

theorem getD_zipWith_and (a b : List Bool) (r : Nat) :
    (List.zipWith (fun x y => x && y) a b).getD r false =
      (a.getD r false && b.getD r false) := by
  induction a generalizing b r with
  | nil => simp
  | cons x xt ih =>
    cases b with
    | nil => simp
    | cons y yt =>
      cases r with
      | zero => simp
      | succ n => simpa using ih yt n

theorem lookupMask_logicalAnd (a b : List (List Bool)) (i r : Nat) :
    lookupMask (logicalAnd a b) i r = (lookupMask a i r && lookupMask b i r) := by
  induction a generalizing b i with
  | nil => simp [logicalAnd, lookupMask]
  | cons ra as ih =>
    cases b with
    | nil => simp [logicalAnd, lookupMask]
    | cons rb bs =>
      cases i with
      | zero =>
        simp only [logicalAnd, List.zipWith_cons_cons, lookupMask, List.getD_cons_zero]
        exact getD_zipWith_and ra rb r
      | succ n =>
        simpa [logicalAnd, lookupMask] using ih bs n

theorem maskLE_logicalAnd_right (a b : List (List Bool)) : maskLE (logicalAnd a b) b := by
  intro i r h
  rw [lookupMask_logicalAnd] at h
  exact (Bool.and_eq_true _ _).mp h |>.2

theorem tvalSum_map_fin (l : List ℚ) (g : ℚ → ℚ) :
    tvalSum (l.map fun d => TVal.fin (g d)) = .fin ((l.map g).sum) := by
  induction l with
  | nil => simp [tvalSum]
  | cons x xt ih => simp [tvalSum, tadd, List.foldr_cons] at ih ⊢; simp [ih, tadd]

theorem sum_map_div (l : List ℚ) (n : ℚ) : (l.map fun d => d / n).sum = l.sum / n := by
  induction l with
  | nil => simp
  | cons x xt ih => simp [ih, add_div]

theorem getD_zipWith_tdiv (a b : List ℚ) (r : Nat) (ha : r < a.length) (hb : r < b.length)
    (d : TVal) :
    (List.zipWith tdiv a b).getD r d = tdiv (a.getD r 0) (b.getD r 0) := by
  induction a generalizing b r with
  | nil => simp at ha
  | cons x xt ih =>
    cases b with
    | nil => simp at hb
    | cons y yt =>
      cases r with
      | zero => simp
      | succ n =>
        have ha2 : n < xt.length := by simpa using ha
        have hb2 : n < yt.length := by simpa using hb
        simpa using ih yt n ha2 hb2

theorem trainingMaskSpec_eq_logicalAnd (a b : List (List Bool)) :
    trainingMaskSpec a b = logicalAnd a b := rfl

/-- C5: the code does NOT convert an out-of-memory failure into a per-batch
skip: the `raise e` at test_set_evaluation_full_model.py line 413 re-raises the
caught RuntimeError, so the failure propagates out of the `get_metric_scores`
loop (and the oom-skip block at lines 415–422 is unreachable). This theorem
evaluates the loop step at the failing input: a batch whose model call raises
an out-of-memory RuntimeError makes the step abort with the propagated error
instead of returning a skipped-state. -/
theorem oom_batch_propagates_error {ω ρ α : Type} [DecidableEq ω]
    (U : BatchUpdaters ω ρ α) (st : MetricState ρ α) (batchSize : Nat) :
    metricStep U st ⟨batchSize, .oomRuntimeError⟩ = .error .oomRaised := rfl

/-- C10: a batch on which the model returns the `-1` sentinel leaves the metric
state exactly unchanged: no detection, selection or abnormality accumulator is
touched, and `num_images` (incremented before the call) is decremented back, so
sentinel batches contribute to neither numerators nor denominators of the
finalized metrics. -/
theorem sentinel_batch_leaves_metric_state_unchanged {ω ρ α : Type} [DecidableEq ω]
    (U : BatchUpdaters ω ρ α) (st : MetricState ρ α) (batchSize : Nat) :
    metricStep U st ⟨batchSize, .ok (.int (-1))⟩ = .ok st := by
  simp [metricStep, Nat.add_sub_cancel]

/-- C6 counterexample: on the spec's own example — two regions with
accumulated `(intersection, union)` of `(3, 6)` and `(0, 0)` — the per-region
IoU list emitted at finalization carries NaN (the float division 0/0) at the
zero-union region, not an explicit "no data" marker; so the claim that such a
region "is never silently emitted as NaN" is false on the code. -/
theorem c6_zero_union_region_emitted_as_nan :
    (computeAvgIouPerRegion ⟨[3, 0], [6, 0], [0, 0]⟩).getD 1 (TVal.fin 0) = TVal.nan := by
  simp [computeAvgIouPerRegion, tdiv]

/-- C6 (amended): at finalization, a region `r` whose accumulated
`unionArea[r]` (and hence `intersectionArea[r]`) is zero has its per-region IoU
silently emitted as NaN — the float division 0/0 — rather than as an explicit
"no data" marker; in particular it is not reported as 0. -/
theorem zero_union_region_yields_nan (s : ObjDetectorScores) (r : Nat)
    (h1 : r < s.sumIntersectionAreaPerRegion.length)
    (h2 : r < s.sumUnionAreaPerRegion.length)
    (hu : s.sumUnionAreaPerRegion.getD r 0 = 0)
    (hi : s.sumIntersectionAreaPerRegion.getD r 0 = 0) :
    (computeAvgIouPerRegion s).getD r (TVal.fin 0) = TVal.nan ∧
      (computeAvgIouPerRegion s).getD r (TVal.fin 0) ≠ TVal.fin 0 := by
  have h := getD_zipWith_tdiv s.sumIntersectionAreaPerRegion s.sumUnionAreaPerRegion r h1 h2
    (TVal.fin 0)
  rw [computeAvgIouPerRegion, h, hu, hi]
  simp [tdiv]

theorem zero_union_region_yields_nan_witness :
    (1 < ([3, 0] : List ℚ).length ∧ 1 < ([6, 0] : List ℚ).length ∧
      ([6, 0] : List ℚ).getD 1 0 = 0 ∧ ([3, 0] : List ℚ).getD 1 0 = 0) ∧
    ((computeAvgIouPerRegion ⟨[3, 0], [6, 0], [0, 0]⟩).getD 1 (TVal.fin 0) = TVal.nan ∧
      (computeAvgIouPerRegion ⟨[3, 0], [6, 0], [0, 0]⟩).getD 1 (TVal.fin 0) ≠ TVal.fin 0) :=
  ⟨⟨by norm_num, by norm_num, by norm_num, by norm_num⟩,
   zero_union_region_yields_nan ⟨[3, 0], [6, 0], [0, 0]⟩ 1
     (by norm_num) (by norm_num) (by norm_num) (by norm_num)⟩

/-- C7: finalization divides exactly once at the end: the overall average IoU
equals the sum of accumulated intersection areas divided by the sum of
accumulated union areas (area-weighted); the per-region average IoU at a region
with nonzero union equals `intersectionArea[r] / unionArea[r]`; and the average
number of detections per image equals the total accumulated detected count over
all regions divided by the total number of images. -/
theorem finalization_divides_once (s : ObjDetectorScores) (numImages : Nat) (r : Nat)
    (hLen1 : r < s.sumIntersectionAreaPerRegion.length)
    (hLen2 : r < s.sumUnionAreaPerRegion.length)
    (hUr : s.sumUnionAreaPerRegion.getD r 0 ≠ 0)
    (hU : s.sumUnionAreaPerRegion.sum ≠ 0)
    (hN : numImages ≠ 0) :
    computeAvgIou s =
      .fin (s.sumIntersectionAreaPerRegion.sum / s.sumUnionAreaPerRegion.sum) ∧
    (computeAvgIouPerRegion s).getD r (TVal.fin 0) =
      .fin (s.sumIntersectionAreaPerRegion.getD r 0 / s.sumUnionAreaPerRegion.getD r 0) ∧
    computeAvgNumDetectedRegionsPerImage s numImages =
      .fin (s.sumRegionDetected.sum / (numImages : ℚ)) := by
  refine ⟨?_, ?_, ?_⟩
  · simp [computeAvgIou, tdiv, hU]
  · rw [computeAvgIouPerRegion, getD_zipWith_tdiv _ _ r hLen1 hLen2, tdiv, if_neg hUr]
  · have hNq : (numImages : ℚ) ≠ 0 := Nat.cast_ne_zero.mpr hN
    have hfun : (fun d => tdiv d (numImages : ℚ)) =
        (fun d => TVal.fin (d / (numImages : ℚ))) := by
      funext d
      simp [tdiv, hNq]
    rw [computeAvgNumDetectedRegionsPerImage, hfun, tvalSum_map_fin, sum_map_div]

theorem finalization_divides_once_witness :
    (0 < ([3, 0] : List ℚ).length ∧ 0 < ([6, 0] : List ℚ).length ∧
      ([6, 0] : List ℚ).getD 0 0 ≠ 0 ∧ ([6, 0] : List ℚ).sum ≠ 0 ∧ 2 ≠ 0) ∧
    (computeAvgIou ⟨[3, 0], [6, 0], [2, 1]⟩ =
        .fin (([3, 0] : List ℚ).sum / ([6, 0] : List ℚ).sum) ∧
      (computeAvgIouPerRegion ⟨[3, 0], [6, 0], [2, 1]⟩).getD 0 (TVal.fin 0) =
        .fin (([3, 0] : List ℚ).getD 0 0 / ([6, 0] : List ℚ).getD 0 0) ∧
      computeAvgNumDetectedRegionsPerImage ⟨[3, 0], [6, 0], [2, 1]⟩ 2 =
        .fin (([2, 1] : List ℚ).sum / ((2 : Nat) : ℚ))) :=
  ⟨⟨by norm_num, by norm_num, by norm_num, by norm_num, by norm_num⟩,
   finalization_divides_once ⟨[3, 0], [6, 0], [2, 1]⟩ 2 0
     (by norm_num) (by norm_num) (by norm_num) (by norm_num) (by norm_num)⟩

/-- C1: in a training-mode forward pass (of the full pipeline, i.e. with the
pretrain-without-language-model flag off), if no slot is simultaneously
detected by the object detector and marked as having a ground-truth sentence
— `logical_and(class_detected, region_has_sentence)` is false everywhere —
then `forward` returns the `-1` sentinel, which is distinct from every normal
tuple result, and the language model is never invoked on that batch. -/
theorem training_empty_and_mask_short_circuits {ι γ ω σ τ φ : Type}
    (S : Stages ι γ ω σ τ φ) (images : ι) (imageTargets : γ)
    (inputIds : List σ) (attentionMask : List τ)
    (regionHasSentence regionIsAbnormal : List (List Bool))
    (lossDict : ω) (topRegionFeatures : List (List φ)) (classDetected : List (List Bool))
    (hDet : S.objectDetectorTrain images imageTargets =
      (lossDict, topRegionFeatures, classDetected))
    (hEmpty : ∀ b ∈ (logicalAnd classDetected regionHasSentence).flatten, b = false) :
    (forward S true false images imageTargets inputIds attentionMask
        regionHasSentence regionIsAbnormal).result = .int (-1) ∧
    (∀ vs : List (PyComp ω),
      (forward S true false images imageTargets inputIds attentionMask
        regionHasSentence regionIsAbnormal).result ≠ .tup vs) ∧
    (forward S true false images imageTargets inputIds attentionMask
        regionHasSentence regionIsAbnormal).lmInput = none := by
  have hIds : compactFlat (logicalAnd classDetected regionHasSentence).flatten inputIds = [] :=
    compactFlat_eq_nil_of_all_false _ _ hEmpty
  refine ⟨?_, ?_, ?_⟩ <;>
    simp [forward, hDet, getValidDecoderInputForTraining, hIds]

theorem training_empty_and_mask_short_circuits_witness :
    (demoStages.objectDetectorTrain () () =
        ((), [[10, 11], [12, 13]], [[true, false], [true, true]]) ∧
      ∀ b ∈ (logicalAnd [[true, false], [true, true]]
        [[false, true], [false, false]]).flatten, b = false) ∧
    ((forward demoStages true false () () [0, 1, 2, 3] [4, 5, 6, 7]
        [[false, true], [false, false]] [[false, false], [false, false]]).result = .int (-1) ∧
      (∀ vs : List (PyComp Unit),
        (forward demoStages true false () () [0, 1, 2, 3] [4, 5, 6, 7]
          [[false, true], [false, false]] [[false, false], [false, false]]).result ≠ .tup vs) ∧
      (forward demoStages true false () () [0, 1, 2, 3] [4, 5, 6, 7]
        [[false, true], [false, false]] [[false, false], [false, false]]).lmInput = none) :=
  ⟨⟨rfl, by decide⟩,
   training_empty_and_mask_short_circuits demoStages () () [0, 1, 2, 3] [4, 5, 6, 7]
     [[false, true], [false, false]] [[false, false], [false, false]]
     () [[10, 11], [12, 13]] [[true, false], [true, true]] rfl (by decide)⟩

/-- C2: for an N×29 dense boolean mask `m`, compacting the flattened
per-region token sequences (input_ids and attention_mask, of length N*29) with
the reshaped mask, and compacting the dense N×29 feature grid with the 2-D
mask, all select exactly the true positions of `m` in row-major order: the
k-th element of each compacted sequence is the entry of the corresponding
input at the k-th true position `(imageIndex_k, regionIndex_k)` of `m`. -/
theorem compaction_row_major_alignment {σ τ φ : Type} (m : List (List Bool))
    (inputIds : List σ) (attentionMask : List τ) (regionFeatures : List (List φ))
    (dIds : σ) (dAm : τ) (dF : φ)
    (hm : ∀ row ∈ m, row.length = numRegions)
    (hIds : inputIds.length = m.length * numRegions)
    (hAm : attentionMask.length = m.length * numRegions)
    (hF : regionFeatures.length = m.length)
    (hFrow : ∀ row ∈ regionFeatures, row.length = numRegions) :
    compactFlat m.flatten inputIds =
      (truePositions m).map (fun p => inputIds.getD (p.1 * numRegions + p.2) dIds) ∧
    compactFlat m.flatten attentionMask =
      (truePositions m).map (fun p => attentionMask.getD (p.1 * numRegions + p.2) dAm) ∧
    compactFlat m.flatten regionFeatures.flatten =
      (truePositions m).map (fun p => (regionFeatures.getD p.1 []).getD p.2 dF) := by
  have hmlen : m.flatten.length = m.length * numRegions :=
    flatten_length_const m numRegions hm
  have hidx : trueIndicesFrom 0 m.flatten =
      (truePositions m).map (fun p => p.1 * numRegions + p.2) := by
    have h := trueIndicesFrom_flatten m numRegions hm 0
    simpa [truePositions] using h
  have hflen : regionFeatures.flatten.length = m.length * numRegions := by
    rw [flatten_length_const regionFeatures numRegions hFrow, hF]
  refine ⟨?_, ?_, ?_⟩
  · rw [compactFlat_eq_map_getD m.flatten inputIds dIds (by rw [hmlen, hIds]),
      hidx, List.map_map]
    rfl
  · rw [compactFlat_eq_map_getD m.flatten attentionMask dAm (by rw [hmlen, hAm]),
      hidx, List.map_map]
    rfl
  · rw [compactFlat_eq_map_getD m.flatten regionFeatures.flatten dF (by rw [hmlen, hflen]),
      hidx, List.map_map]
    refine List.map_congr_left fun p hp => ?_
    exact getD_flatten_const regionFeatures numRegions hFrow p.1 p.2
      (snd_lt_of_mem_truePositionsFrom m numRegions hm 0 p hp) dF

theorem compaction_row_major_alignment_witness :
    ((∀ row ∈ [List.replicate 29 true], row.length = numRegions) ∧
      (List.range 29).length = 1 * numRegions ∧
      (List.range 29).length = 1 * numRegions ∧
      ([List.range 29] : List (List Nat)).length = 1 ∧
      ∀ row ∈ ([List.range 29] : List (List Nat)), row.length = numRegions) ∧
    (compactFlat (List.flatten [List.replicate 29 true]) (List.range 29) =
        (truePositions [List.replicate 29 true]).map
          (fun p => (List.range 29).getD (p.1 * numRegions + p.2) 0) ∧
      compactFlat (List.flatten [List.replicate 29 true]) (List.range 29) =
        (truePositions [List.replicate 29 true]).map
          (fun p => (List.range 29).getD (p.1 * numRegions + p.2) 0) ∧
      compactFlat (List.flatten [List.replicate 29 true])
          (List.flatten ([List.range 29] : List (List Nat))) =
        (truePositions [List.replicate 29 true]).map
          (fun p => (([List.range 29] : List (List Nat)).getD p.1 []).getD p.2 0)) :=
  ⟨⟨by decide, by decide, by decide, by decide, by decide⟩,
   compaction_row_major_alignment [List.replicate 29 true] (List.range 29) (List.range 29)
     [List.range 29] 0 0 0 (by decide) (by decide) (by decide) (by decide) (by decide)⟩

/-- C3: in training mode (full pipeline), the mask that compacts features,
input_ids and attention_mask for the generator is exactly the elementwise
logical AND of the detector's `class_detected` mask and the ground-truth
`region_has_sentence` mask (stated via the spec-side `trainingMaskSpec`), and
no other condition enters: in particular the result is unchanged under any
replacement of the region-selection classifier (second conjunct). -/
theorem training_compaction_is_and_mask {ι γ ω σ τ φ : Type}
    (S S' : Stages ι γ ω σ τ φ) (images : ι) (imageTargets : γ)
    (inputIds : List σ) (attentionMask : List τ)
    (regionHasSentence regionIsAbnormal : List (List Bool))
    (lossDict : ω) (topRegionFeatures : List (List φ)) (classDetected : List (List Bool))
    (hDet : S.objectDetectorTrain images imageTargets =
      (lossDict, topRegionFeatures, classDetected))
    (hDet' : S'.objectDetectorTrain = S.objectDetectorTrain) :
    (forward S true false images imageTargets inputIds attentionMask
        regionHasSentence regionIsAbnormal).lmInput =
      (if (compactFlat (trainingMaskSpec classDetected regionHasSentence).flatten
            inputIds).length = 0 then none
       else some
        (compactFlat (trainingMaskSpec classDetected regionHasSentence).flatten inputIds,
         compactFlat (trainingMaskSpec classDetected regionHasSentence).flatten attentionMask,
         compactFlat (trainingMaskSpec classDetected regionHasSentence).flatten
           topRegionFeatures.flatten)) ∧
    (forward S' true false images imageTargets inputIds attentionMask
        regionHasSentence regionIsAbnormal).lmInput =
      (forward S true false images imageTargets inputIds attentionMask
        regionHasSentence regionIsAbnormal).lmInput := by
  constructor
  · rw [trainingMaskSpec_eq_logicalAnd]
    by_cases hc :
        (compactFlat (logicalAnd classDetected regionHasSentence).flatten inputIds).length = 0
    · simp [forward, hDet, getValidDecoderInputForTraining, hc]
    · simp [forward, hDet, getValidDecoderInputForTraining, hc]
  · by_cases hc :
        (compactFlat (logicalAnd classDetected regionHasSentence).flatten inputIds).length = 0
    · simp [forward, hDet, hDet', getValidDecoderInputForTraining, hc]
    · simp [forward, hDet, hDet', getValidDecoderInputForTraining, hc]

theorem training_compaction_is_and_mask_witness :
    (demoStages.objectDetectorTrain () () =
        ((), [[10, 11], [12, 13]], [[true, false], [true, true]]) ∧
      demoStages.objectDetectorTrain = demoStages.objectDetectorTrain) ∧
    ((forward demoStages true false () () [0, 1, 2, 3] [4, 5, 6, 7]
        [[true, true], [false, true]] [[false, false], [false, false]]).lmInput =
      (if (compactFlat (trainingMaskSpec [[true, false], [true, true]]
            [[true, true], [false, true]]).flatten [0, 1, 2, 3]).length = 0 then none
       else some
        (compactFlat (trainingMaskSpec [[true, false], [true, true]]
          [[true, true], [false, true]]).flatten [0, 1, 2, 3],
         compactFlat (trainingMaskSpec [[true, false], [true, true]]
          [[true, true], [false, true]]).flatten [4, 5, 6, 7],
         compactFlat (trainingMaskSpec [[true, false], [true, true]]
          [[true, true], [false, true]]).flatten (List.flatten [[10, 11], [12, 13]]))) ∧
      (forward demoStages true false () () [0, 1, 2, 3] [4, 5, 6, 7]
        [[true, true], [false, true]] [[false, false], [false, false]]).lmInput =
      (forward demoStages true false () () [0, 1, 2, 3] [4, 5, 6, 7]
        [[true, true], [false, true]] [[false, false], [false, false]]).lmInput) :=
  ⟨⟨rfl, rfl⟩,
   training_compaction_is_and_mask demoStages demoStages () () [0, 1, 2, 3] [4, 5, 6, 7]
     [[true, true], [false, true]] [[false, false], [false, false]]
     () [[10, 11], [12, 13]] [[true, false], [true, true]] rfl rfl⟩

/-- C4: in evaluation (non-training, full-pipeline) mode, the token sequences
and region features passed to the generator are compacted with the selector's
predicted `selected_regions` mask — the rows kept are exactly those where
`selected_regions` is true — and not with the ground-truth
`region_has_sentence` mask. The region features come from the classifier,
whose §6 contract (`hContract`, spec-modelled: the classifier source is not
under src/) says they are the dense features compacted by the same mask. -/
theorem evaluation_compaction_uses_selected_mask {ι γ ω σ τ φ : Type}
    (S : Stages ι γ ω σ τ φ) (images : ι) (imageTargets : γ)
    (inputIds : List σ) (attentionMask : List τ)
    (regionHasSentence regionIsAbnormal : List (List Bool))
    (lossDict detections : ω) (topRegionFeatures : List (List φ))
    (classDetected : List (List Bool)) (clsLoss : ω)
    (selectedRegions : List (List Bool)) (selectedRegionFeatures : List φ)
    (hDet : S.objectDetectorEval images imageTargets =
      (lossDict, detections, topRegionFeatures, classDetected))
    (hCls : S.classifierEval topRegionFeatures classDetected regionHasSentence =
      (clsLoss, selectedRegions, selectedRegionFeatures))
    (hContract : selectedRegionFeatures =
      compactFlat selectedRegions.flatten topRegionFeatures.flatten) :
    (forward S false false images imageTargets inputIds attentionMask
        regionHasSentence regionIsAbnormal).lmInput =
      (if (compactFlat selectedRegions.flatten inputIds).length = 0 then none
       else some
        (compactFlat selectedRegions.flatten inputIds,
         compactFlat selectedRegions.flatten attentionMask,
         compactFlat selectedRegions.flatten topRegionFeatures.flatten)) := by
  by_cases hc : (compactFlat selectedRegions.flatten inputIds).length = 0
  · simp [forward, hDet, hCls, getValidDecoderInputForEvaluation, hContract, hc]
  · simp [forward, hDet, hCls, getValidDecoderInputForEvaluation, hContract, hc]

theorem evaluation_compaction_uses_selected_mask_witness :
    (demoStages.objectDetectorEval () () =
        ((), (), [[10, 11], [12, 13]], [[true, false], [true, true]]) ∧
      demoStages.classifierEval [[10, 11], [12, 13]] [[true, false], [true, true]]
        [[true, true], [false, false]] =
        ((), [[true, false], [false, true]], [10, 13]) ∧
      ([10, 13] : List Nat) =
        compactFlat [[true, false], [false, true]].flatten
          (List.flatten [[10, 11], [12, 13]])) ∧
    (forward demoStages false false () () [0, 1, 2, 3] [4, 5, 6, 7]
        [[true, true], [false, false]] [[false, false], [false, false]]).lmInput =
      (if (compactFlat [[true, false], [false, true]].flatten [0, 1, 2, 3]).length = 0
       then none
       else some
        (compactFlat [[true, false], [false, true]].flatten [0, 1, 2, 3],
         compactFlat [[true, false], [false, true]].flatten [4, 5, 6, 7],
         compactFlat [[true, false], [false, true]].flatten
           (List.flatten [[10, 11], [12, 13]]))) :=
  ⟨⟨rfl, by decide, by decide⟩,
   evaluation_compaction_uses_selected_mask demoStages () () [0, 1, 2, 3] [4, 5, 6, 7]
     [[true, true], [false, false]] [[false, false], [false, false]]
     () () [[10, 11], [12, 13]] [[true, false], [true, true]] ()
     [[true, false], [false, true]] [10, 13] rfl (by decide) (by decide)⟩

/-- C8: the selection invariant `selected ⇒ detected` holds for every pipeline
run: whenever a normal result of evaluation-mode `forward` or of `generate`
carries a `(class_detected, selected_regions)` pair, every true entry of
`selected_regions` is a true entry of `class_detected`. The pipeline only
propagates the classifier's mask, so this rests on the spec-modelled classifier
contract (`hEvalContract`, `hGenContract`): per §4.2 step 2 the invariant holds
by construction of the selector's own masking. -/
theorem selected_implies_detected {ι γ ω σ τ φ : Type}
    (S : Stages ι γ ω σ τ φ) (images : ι) (imageTargets : γ)
    (inputIds : List σ) (attentionMask : List τ)
    (regionHasSentence regionIsAbnormal : List (List Bool))
    (hEvalContract : ∀ (f : List (List φ)) (cd rhs : List (List Bool)),
      maskLE ((S.classifierEval f cd rhs).2.1) cd)
    (hGenContract : ∀ (f : List (List φ)) (cd : List (List Bool)),
      maskLE ((S.classifierInference f cd).1) cd) :
    (∀ cd sel, evalResultMasks (forward S false false images imageTargets inputIds
        attentionMask regionHasSentence regionIsAbnormal).result = some (cd, sel) →
      maskLE sel cd) ∧
    (∀ cd sel, generateResultMasks (generate S images) = some (cd, sel) →
      maskLE sel cd) := by
  constructor
  · intro cd sel h
    simp only [forward, Bool.false_eq_true, ite_false, apply_ite ForwardOut.result,
      apply_ite evalResultMasks] at h
    split at h
    · simp [evalResultMasks] at h
    · simp only [evalResultMasks] at h
      rcases h with ⟨rfl, rfl⟩
      exact hEvalContract _ _ _
  · intro cd sel h
    simp only [generate, apply_ite generateResultMasks] at h
    split at h
    · simp [generateResultMasks] at h
    · simp only [generateResultMasks] at h
      rcases h with ⟨rfl, rfl⟩
      exact hGenContract _ _

theorem selected_implies_detected_witness :
    ((∀ (f : List (List Nat)) (cd rhs : List (List Bool)),
        maskLE ((demoStages.classifierEval f cd rhs).2.1) cd) ∧
      (∀ (f : List (List Nat)) (cd : List (List Bool)),
        maskLE ((demoStages.classifierInference f cd).1) cd)) ∧
    ((∀ cd sel, evalResultMasks (forward demoStages false false () () [0, 1, 2, 3]
        [4, 5, 6, 7] [[true, true], [true, true]]
        [[false, false], [false, false]]).result = some (cd, sel) → maskLE sel cd) ∧
      (∀ cd sel, generateResultMasks (generate demoStages ()) = some (cd, sel) →
        maskLE sel cd)) :=
  ⟨⟨fun _f cd _ => maskLE_logicalAnd_right _ cd,
    fun _f cd => maskLE_logicalAnd_right _ cd⟩,
   selected_implies_detected demoStages () () [0, 1, 2, 3] [4, 5, 6, 7]
     [[true, true], [true, true]] [[false, false], [false, false]]
     (fun _f cd _ => maskLE_logicalAnd_right _ cd)
     (fun _f cd => maskLE_logicalAnd_right _ cd)⟩

theorem unpack8_tup_six {ω : Type} (a b c d e f : PyComp ω) :
    unpack8 (.tup [a, b, c, d, e, f]) = none := rfl

theorem metricStep_unpack_failure {ω ρ α : Type} [DecidableEq ω] (U : BatchUpdaters ω ρ α)
    (st : MetricState ρ α) (batchSize : Nat) (v : PyRet ω)
    (hv : ¬v = PyRet.int (-1)) (hu : unpack8 v = none) :
    metricStep U st ⟨batchSize, .ok v⟩ = .error .unpackValueError := by
  simp only [metricStep]
  rw [if_neg hv, hu]

/-- C9: on every evaluation batch where `forward` (evaluation mode, full
pipeline) returns a normal, non-sentinel result, that result is a tuple of
exactly 6 components — while `get_metric_scores` destructures the output into
8 components; the 8-way unpacking therefore fails (a ValueError in Python),
aborting the loop step. -/
theorem eval_forward_returns_6_tuple_unpack8_fails {ι γ ω σ τ φ ρ α : Type} [DecidableEq ω]
    (S : Stages ι γ ω σ τ φ) (U : BatchUpdaters ω ρ α) (st : MetricState ρ α)
    (batchSize : Nat) (images : ι) (imageTargets : γ)
    (inputIds : List σ) (attentionMask : List τ)
    (regionHasSentence regionIsAbnormal : List (List Bool))
    (h : (forward S false false images imageTargets inputIds attentionMask
      regionHasSentence regionIsAbnormal).result ≠ .int (-1)) :
    (∃ vs : List (PyComp ω),
      (forward S false false images imageTargets inputIds attentionMask
        regionHasSentence regionIsAbnormal).result = .tup vs ∧ vs.length = 6) ∧
    unpack8 (forward S false false images imageTargets inputIds attentionMask
      regionHasSentence regionIsAbnormal).result = none ∧
    metricStep U st ⟨batchSize, .ok (forward S false false images imageTargets inputIds
      attentionMask regionHasSentence regionIsAbnormal).result⟩ =
      .error .unpackValueError := by
  have hshape : (forward S false false images imageTargets inputIds attentionMask
      regionHasSentence regionIsAbnormal).result = .int (-1) ∨
      ∃ v1 v2 v3 v4 v5 v6 : PyComp ω,
        (forward S false false images imageTargets inputIds attentionMask
          regionHasSentence regionIsAbnormal).result = .tup [v1, v2, v3, v4, v5, v6] := by
    simp only [forward, Bool.false_eq_true, ite_false, apply_ite ForwardOut.result]
    split
    · exact Or.inl rfl
    · exact Or.inr ⟨_, _, _, _, _, _, rfl⟩
  rcases hshape with h1 | ⟨v1, v2, v3, v4, v5, v6, hvs⟩
  · exact absurd h1 h
  · refine ⟨⟨[v1, v2, v3, v4, v5, v6], hvs, rfl⟩, ?_, ?_⟩
    · rw [hvs]
      exact unpack8_tup_six v1 v2 v3 v4 v5 v6
    · refine metricStep_unpack_failure U st batchSize _ h ?_
      rw [hvs]
      exact unpack8_tup_six v1 v2 v3 v4 v5 v6

theorem eval_forward_returns_6_tuple_unpack8_fails_witness :
    (forward demoStages false false () () [0, 1, 2, 3] [4, 5, 6, 7]
        [[true, true], [true, true]] [[false, false], [false, false]]).result ≠
          PyRet.int (-1) ∧
    ((∃ vs : List (PyComp Unit),
        (forward demoStages false false () () [0, 1, 2, 3] [4, 5, 6, 7]
          [[true, true], [true, true]] [[false, false], [false, false]]).result =
            .tup vs ∧ vs.length = 6) ∧
      unpack8 (forward demoStages false false () () [0, 1, 2, 3] [4, 5, 6, 7]
        [[true, true], [true, true]] [[false, false], [false, false]]).result = none ∧
      metricStep demoUpdaters demoState ⟨4,
        .ok (forward demoStages false false () () [0, 1, 2, 3] [4, 5, 6, 7]
          [[true, true], [true, true]] [[false, false], [false, false]]).result⟩ =
        .error .unpackValueError) :=
  ⟨by decide,
   eval_forward_returns_6_tuple_unpack8_fails demoStages demoUpdaters demoState 4 () ()
     [0, 1, 2, 3] [4, 5, 6, 7] [[true, true], [true, true]]
     [[false, false], [false, false]] (by decide)⟩

end ReportGen
